import Mathlib

/-!
Shallow embedding of `src/dist/mo.netmonitor.js` (moNetworkMonitor, v2.0.0).

The monitor is a single-threaded, event-driven JS class.  We embed it as:

* `MonitorState` — the instance fields set up by the constructor
  (`pingUrl`, `pollInterval`, `maxInterval`, `backoffFactor`,
  `currentInterval`, `_lastStatus`, `_lastEffectiveType`, `_checkTimer`,
  `_connectionChangeSupported`).
* `World` — the instance state together with the host environment state the
  code manipulates: which listeners are registered on `window` /
  `navigator.connection`, the set of pending `setTimeout` check timers
  (handle and delay), and the set of in-flight `fetch` continuations of the
  async `_check` (the part of `_check` after `await fetch` that runs when the
  request settles).
* `step` — one event-loop task: a timer firing, a probe settling, a native
  `online`/`offline` event, a `change` event from `navigator.connection`, or
  a user call to `start()`/`stop()`.  Each step returns the new world plus
  the list of user callbacks invoked during the task, in invocation order.

JS numbers used for intervals/latency are modelled as `ℚ`; timestamps as
`ℕ`; `undefined`/`null` as `none`.  The `x || default` defaulting in the
constructor is modelled by its effect on the inhabiting values: a number is
falsy exactly when it is `0` (`NaN` has no counterpart in `ℚ`), a string is
falsy exactly when it is empty, and an absent option is falsy.
-/

namespace NetMonitor

/- Batteries marks `Rat.mul` `@[irreducible]`.  The concrete executions below
are settled by evaluation, which needs rational multiplication to reduce. -/
set_option allowUnsafeReducibility true
attribute [semireducible] Rat.mul

/-- Network status, the values of `_lastStatus` (`'online'` / `'offline'`). -/
inductive Status where
  | online
  | offline
deriving DecidableEq, Repr

/-- The `navigator.connection` object as read by the code: the five fields of
`_getConnectionInfo` plus whether `addEventListener` is a function (the
capability test in `_setupConnectionChangeListener`).  `connType` models the
JS property named `type`. -/
structure Connection where
  effectiveType : Option String
  downlink : Option ℚ
  rtt : Option ℚ
  saveData : Option Bool
  connType : Option String
  hasAddEventListener : Bool
deriving DecidableEq, Repr

/-- Result shape of `_getConnectionInfo`. -/
structure ConnectionInfo where
  downlink : Option ℚ
  effectiveType : Option String
  rtt : Option ℚ
  saveData : Option Bool
  connType : Option String
deriving DecidableEq, Repr

/-- `_getConnectionInfo` on a non-null connection: each field read with
`?? null`. -/
def getConnectionInfo (c : Connection) : ConnectionInfo where
  downlink := c.downlink
  effectiveType := c.effectiveType
  rtt := c.rtt
  saveData := c.saveData
  connType := c.connType

/-- Constructor options (`options` argument).  `none` models an absent
property. -/
structure Options where
  pingUrl : Option String := none
  pollInterval : Option ℚ := none
  maxInterval : Option ℚ := none
  backoffFactor : Option ℚ := none
deriving DecidableEq, Repr

/-- JS `v || d` for a numeric option: `0` is falsy, everything else truthy. -/
def jsOrNum (v : Option ℚ) (d : ℚ) : ℚ :=
  match v with
  | some x => if x = 0 then d else x
  | none => d

/-- JS `s || null` for a string option: the empty string is falsy. -/
def jsOrString (v : Option String) : Option String :=
  match v with
  | some s => if s = "" then none else some s
  | none => none

/-- Instance fields after the constructor has run. -/
structure MonitorState where
  pingUrl : Option String
  pollInterval : ℚ
  maxInterval : ℚ
  backoffFactor : ℚ
  currentInterval : ℚ
  lastStatus : Status
  lastEffectiveType : Option String
  checkTimer : Option ℕ
  connectionChangeSupported : Bool
deriving DecidableEq, Repr

/-- The constructor: option defaulting (`|| null`, `|| 10000`, `|| 60000`,
`|| 2`), `currentInterval = pollInterval`, `_lastStatus = 'online'`,
`_lastEffectiveType = null`, `_checkTimer = null`,
`_connectionChangeSupported = false`. -/
def mkMonitor (o : Options) : MonitorState where
  pingUrl := jsOrString o.pingUrl
  pollInterval := jsOrNum o.pollInterval 10000
  maxInterval := jsOrNum o.maxInterval 60000
  backoffFactor := jsOrNum o.backoffFactor 2
  currentInterval := jsOrNum o.pollInterval 10000
  lastStatus := Status.online
  lastEffectiveType := none
  checkTimer := none
  connectionChangeSupported := false

/-- Payload of the `onChange` callback.  The poll path of `_check` builds
`{timestamp, effectiveType, previousEffectiveType, source: 'poll'}` (no link
fields); `_handleConnectionChange` builds `{timestamp, effectiveType,
previousEffectiveType, downlink, rtt, saveData, type}` (no `source`).
Fields the respective object literal omits are `none` (JS `undefined`). -/
structure ChangePayload where
  timestamp : ℕ
  effectiveType : Option String
  previousEffectiveType : Option String
  source : Option String
  downlink : Option ℚ
  rtt : Option ℚ
  saveData : Option Bool
  connType : Option String
deriving DecidableEq, Repr

/-- A user-callback invocation, with its payload. -/
inductive Callback where
  | check (timestamp : ℕ) (interval : ℚ) (latency : Option ℚ) (status : Status)
      (connection : Option ConnectionInfo)
  | onlineCb (timestamp : ℕ)
  | offlineCb (timestamp : ℕ)
  | changeCb (payload : ChangePayload)
deriving DecidableEq, Repr

/-- `_handleStatusChange(isOnline)`: fire `onOnline`/`onOffline` with
`Date.now()`, reset `currentInterval` to `pollInterval`, update
`_lastStatus`. -/
def handleStatusChange (isOnline : Bool) (now : ℕ) (m : MonitorState) :
    MonitorState × List Callback :=
  ({ m with
      currentInterval := m.pollInterval,
      lastStatus := if isOnline then Status.online else Status.offline },
   [if isOnline then Callback.onlineCb now else Callback.offlineCb now])

/-- The `onChange` payload built by the poll path of `_check`. -/
def pollChangePayload (now : ℕ) (curET prevET : Option String) : ChangePayload where
  timestamp := now
  effectiveType := curET
  previousEffectiveType := prevET
  source := some "poll"
  downlink := none
  rtt := none
  saveData := none
  connType := none

/-- The `onChange` payload built by `_handleConnectionChange` (note: no
`source` field in the source's object literal). -/
def eventChangePayload (now : ℕ) (c : Connection) (prevET : Option String) :
    ChangePayload where
  timestamp := now
  effectiveType := c.effectiveType
  previousEffectiveType := prevET
  source := none
  downlink := c.downlink
  rtt := c.rtt
  saveData := c.saveData
  connType := c.connType

/-- `statusOf b` is `currentStatus = isOnline ? 'online' : 'offline'`. -/
def statusOf (b : Bool) : Status :=
  if b then Status.online else Status.offline

/-- `connectionInfo?.effectiveType ?? null`. -/
def infoEffectiveType (ci : Option ConnectionInfo) : Option String :=
  match ci with
  | none => none
  | some i => i.effectiveType

/-- The part of `_check` after the probe outcome is known (lines 181–225):
status-change handling with backoff, the `onCheck` invocation, and the
poll-path `effectiveType` comparison firing `onChange`.  `isOnline` and
`latency` are the values the probe section computed; `conn` is
`_getConnection()` at this point; `now` is `Date.now()`.  The trailing
`_scheduleCheck()` is performed by the caller (it needs the `World`). -/
def checkBody (isOnline : Bool) (latency : Option ℚ) (conn : Option Connection)
    (now : ℕ) (m : MonitorState) : MonitorState × List Callback :=
  let currentStatus := statusOf isOnline
  let step1 :=
    if currentStatus ≠ m.lastStatus then
      handleStatusChange isOnline now m
    else if isOnline then
      ({ m with currentInterval := m.pollInterval }, [])
    else
      ({ m with currentInterval :=
          (min (m.currentInterval * m.backoffFactor) m.maxInterval) }, [])
  let m1 := step1.1
  let connectionInfo := conn.map getConnectionInfo
  let checkCb := Callback.check now m1.currentInterval latency currentStatus connectionInfo
  let currentEffectiveType := infoEffectiveType connectionInfo
  if currentEffectiveType ≠ m1.lastEffectiveType then
    ({ m1 with lastEffectiveType := currentEffectiveType },
     step1.2 ++ [checkCb,
       Callback.changeCb (pollChangePayload now currentEffectiveType m1.lastEffectiveType)])
  else
    (m1, step1.2 ++ [checkCb])

/-- `_handleConnectionChange()`: re-read the connection; bail out if null;
fire `onChange` only when `effectiveType` differs from
`_lastEffectiveType`, updating the recorded value first. -/
def handleConnectionChange (conn : Option Connection) (now : ℕ) (m : MonitorState) :
    MonitorState × List Callback :=
  match conn with
  | none => (m, [])
  | some c =>
    let newEffectiveType := c.effectiveType
    if newEffectiveType ≠ m.lastEffectiveType then
      ({ m with lastEffectiveType := newEffectiveType },
       [Callback.changeCb (eventChangePayload now c m.lastEffectiveType)])
    else
      (m, [])

/-- Event-loop state: the monitor plus the host resources it owns.
`pendingTimers` holds `(handle, delay)` for every not-yet-fired check timer
created by `_scheduleCheck`; `inFlight` holds the ids of `_check`
continuations suspended on `await fetch`; `nextId` supplies fresh handles. -/
structure World where
  monitor : MonitorState
  onlineListener : Bool
  offlineListener : Bool
  connListener : Bool
  pendingTimers : List (ℕ × ℚ)
  inFlight : List ℕ
  nextId : ℕ
deriving DecidableEq, Repr

/-- A freshly constructed monitor: no listeners, no timers, no probes. -/
def initWorld (o : Options) : World where
  monitor := mkMonitor o
  onlineListener := false
  offlineListener := false
  connListener := false
  pendingTimers := []
  inFlight := []
  nextId := 0

/-- `_scheduleCheck()`: clear the timer recorded in `_checkTimer` (a no-op on
an already-fired handle), then `setTimeout(() => this._check(),
this.currentInterval)` and record the new handle. -/
def scheduleCheck (w : World) : World :=
  let cleared :=
    match w.monitor.checkTimer with
    | some h => w.pendingTimers.filter (fun p => p.1 ≠ h)
    | none => w.pendingTimers
  { w with
    pendingTimers := cleared ++ [(w.nextId, w.monitor.currentInterval)],
    monitor := { w.monitor with checkTimer := some w.nextId },
    nextId := w.nextId + 1 }

/-- `_setupConnectionChangeListener()`: if a connection object exists and has
an `addEventListener` function, subscribe to `change`, set the capability
flag, and snapshot `effectiveType ?? null` as baseline; otherwise clear the
flag. -/
def setupConnectionChangeListener (conn : Option Connection) (w : World) : World :=
  match conn with
  | some c =>
    if c.hasAddEventListener then
      { w with
        connListener := true,
        monitor := { w.monitor with
          connectionChangeSupported := true,
          lastEffectiveType := c.effectiveType } }
    else
      { w with monitor := { w.monitor with connectionChangeSupported := false } }
  | none => { w with monitor := { w.monitor with connectionChangeSupported := false } }

/-- `start()`: add the `online`/`offline` window listeners (EventTarget
deduplicates an identical listener, so booleans are faithful), set up the
connection listener, and `_scheduleCheck()`. -/
def start (conn : Option Connection) (w : World) : World :=
  scheduleCheck (setupConnectionChangeListener conn
    { w with onlineListener := true, offlineListener := true })

/-- `stop()`: remove the window listeners; remove the connection listener if
a connection object exists and the capability flag is set; clear the pending
check timer recorded in `_checkTimer` and null the handle.  Note: `stop()`
does not touch `inFlight` — the code has no reference to the
`AbortController` of a running `_check`. -/
def stop (conn : Option Connection) (w : World) : World :=
  let w1 := { w with onlineListener := false, offlineListener := false }
  let w2 :=
    if conn.isSome && w1.monitor.connectionChangeSupported then
      { w1 with connListener := false }
    else w1
  match w2.monitor.checkTimer with
  | some h =>
    { w2 with
      pendingTimers := w2.pendingTimers.filter (fun p => p.1 ≠ h),
      monitor := { w2.monitor with checkTimer := none } }
  | none => w2

/-- Host-environment inputs read during a `_check` task: `navigator?.onLine`
(`none` when `navigator` is absent), `_getConnection()`, and `Date.now()`. -/
structure CheckEnv where
  navOnLine : Option Bool
  connection : Option Connection
  now : ℕ
deriving DecidableEq, Repr

/-- Run the post-probe part of `_check` and then `_scheduleCheck()`. -/
def runCheckBody (isOnline : Bool) (latency : Option ℚ) (env : CheckEnv)
    (w : World) : World × List Callback :=
  let r := checkBody isOnline latency env.connection env.now w.monitor
  (scheduleCheck { w with monitor := r.1 }, r.2)

/-- One event-loop task.  `fireTimer h` delivers timer `h` if it is pending;
`settleProbe pid result` resumes the `_check` continuation `pid` with
`result = some latency` when the `fetch` completed (any completion, opaque
included) and `result = none` when it threw, rejected or was aborted by the
10 s timeout; the native and connection events are delivered only when the
corresponding listener is registered. -/
inductive Event where
  | fireTimer (h : ℕ) (env : CheckEnv)
  | settleProbe (pid : ℕ) (result : Option ℚ) (env : CheckEnv)
  | nativeOnline (now : ℕ)
  | nativeOffline (now : ℕ)
  | connChange (conn : Option Connection) (now : ℕ)
  | userStart (conn : Option Connection)
  | userStop (conn : Option Connection)
deriving DecidableEq, Repr

/-- The event-loop step: the new world and the callbacks invoked, in order.
A fired timer enters `_check`: with a `pingUrl` the task suspends on
`await fetch` (a new in-flight continuation, resumed by `settleProbe`);
without one the whole body runs synchronously on `navigator?.onLine ?? false`
with `latency = null`. -/
def step (w : World) (e : Event) : World × List Callback :=
  match e with
  | Event.fireTimer h env =>
    if (w.pendingTimers.map Prod.fst).contains h then
      let w1 := { w with pendingTimers := w.pendingTimers.filter (fun p => p.1 ≠ h) }
      match w1.monitor.pingUrl with
      | some _ =>
        ({ w1 with inFlight := w1.inFlight ++ [w1.nextId], nextId := w1.nextId + 1 }, [])
      | none => runCheckBody (env.navOnLine.getD false) none env w1
    else (w, [])
  | Event.settleProbe pid result env =>
    if w.inFlight.contains pid then
      let w1 := { w with inFlight := w.inFlight.filter (fun q => q ≠ pid) }
      match result with
      | some lat => runCheckBody true (some lat) env w1
      | none => runCheckBody false none env w1
    else (w, [])
  | Event.nativeOnline now =>
    if w.onlineListener then
      let r := handleStatusChange true now w.monitor
      ({ w with monitor := r.1 }, r.2)
    else (w, [])
  | Event.nativeOffline now =>
    if w.offlineListener then
      let r := handleStatusChange false now w.monitor
      ({ w with monitor := r.1 }, r.2)
    else (w, [])
  | Event.connChange conn now =>
    if w.connListener then
      let r := handleConnectionChange conn now w.monitor
      ({ w with monitor := r.1 }, r.2)
    else (w, [])
  | Event.userStart conn => (start conn w, [])
  | Event.userStop conn => (stop conn w, [])

/-- Run a sequence of event-loop tasks, accumulating callbacks in order. -/
def run (w : World) (es : List Event) : World × List Callback :=
  match es with
  | [] => (w, [])
  | e :: rest =>
    let r := step w e
    let r2 := run r.1 rest
    (r2.1, r.2 ++ r2.2)

/-- Is this an `onOnline`/`onOffline` invocation? -/
def Callback.isStatusCb : Callback → Bool
  | Callback.onlineCb _ => true
  | Callback.offlineCb _ => true
  | _ => false

/-- Is this an `onCheck` invocation? -/
def Callback.isCheckCb : Callback → Bool
  | Callback.check _ _ _ _ _ => true
  | _ => false

/-- The `(latency, status)` pairs reported through `onCheck`. -/
def checkReports (cbs : List Callback) : List (Option ℚ × Status) :=
  cbs.filterMap fun c =>
    match c with
    | Callback.check _ _ lat st _ => some (lat, st)
    | _ => none

/-- The payloads of the `onChange` invocations in a callback list. -/
def changePayloads (cbs : List Callback) : List ChangePayload :=
  cbs.filterMap fun c =>
    match c with
    | Callback.changeCb p => some p
    | _ => none

/-- A probe-tick observation as consumed by the body of `_check`: the probe
outcome together with the host readings at that tick. -/
structure PollObs where
  isOnline : Bool
  latency : Option ℚ
  conn : Option Connection
  now : ℕ
deriving DecidableEq, Repr

/-- Apply a sequence of probe-tick observations through the body of
`_check`, accumulating the callbacks. -/
def runPolls (m : MonitorState) : List PollObs → MonitorState × List Callback
  | [] => (m, [])
  | o :: rest =>
    let r := checkBody o.isOnline o.latency o.conn o.now m
    let r2 := runPolls r.1 rest
    (r2.1, r.2 ++ r2.2)

/-- Number of `onOnline`/`onOffline` invocations in a callback list. -/
def statusCbCount (cbs : List Callback) : ℕ :=
  (cbs.filter Callback.isStatusCb).length

/-- `edgeCount st bs` counts the observations in `bs` whose direction
differs from the status held just before them: one count per contiguous
run of same-direction observations that actually changes the held status,
zero for observations confirming it. -/
def edgeCount : Status → List Bool → ℕ
  | _, [] => 0
  | st, b :: bs => (if statusOf b = st then 0 else 1) + edgeCount (statusOf b) bs

/-- At most one check timer is pending, and any pending one is the one whose
handle `_checkTimer` records. -/
def TimerInv (w : World) : Prop :=
  w.pendingTimers.length ≤ 1 ∧ ∀ p ∈ w.pendingTimers, w.monitor.checkTimer = some p.1

instance (w : World) : Decidable (TimerInv w) := by
  unfold TimerInv; infer_instance

/-! ### Concrete configurations and executions used in closed theorems -/

/-- Options carrying only a ping URL. -/
def pingOpts : Options := { pingUrl := some "/ping.txt" }

/-- A check environment whose native flag reports online. -/
def envOnline : CheckEnv := { navOnLine := some true, connection := none, now := 0 }

/-- A check environment whose native flag reports offline. -/
def envOffline : CheckEnv := { navOnLine := some false, connection := none, now := 0 }

/-- A ping-configured monitor after `start()`, one timer firing (the probe
is now in flight), and `stop()`. -/
def stoppedWorld : World :=
  (run (initWorld pingOpts)
    [Event.userStart none, Event.fireTimer 0 envOnline, Event.userStop none]).1

/-- The world of a just-constructed, probe-less monitor after `start()`. -/
def startedWorld : World := (step (initWorld {}) (Event.userStart none)).1

/-- A wifi connection reporting effective type `"4g"`. -/
def wifi4g : Connection :=
  { effectiveType := some "4g", downlink := some 10, rtt := some 50,
    saveData := some false, connType := some "wifi", hasAddEventListener := true }

/-- The same connection degraded to `"3g"`. -/
def wifi3g : Connection := { wifi4g with effectiveType := some "3g" }

/-- A monitor whose recorded link classification is `"4g"`. -/
def monitor4g : MonitorState := { mkMonitor {} with lastEffectiveType := some "4g" }

/-- Scenario-A options: base 1000, max 4000, factor 2. -/
def backoffOpts : Options :=
  { pollInterval := some 1000, maxInterval := some 4000, backoffFactor := some 2 }

/-- A base-1000/max-4000/factor-2 monitor right after an Offline transition:
status offline, interval reset to the base. -/
def offlineBase : MonitorState :=
  { mkMonitor backoffOpts with lastStatus := Status.offline, currentInterval := 1000 }

/-- Three consecutive offline probe observations. -/
def threeOffline : List PollObs :=
  [⟨false, none, none, 1⟩, ⟨false, none, none, 2⟩, ⟨false, none, none, 3⟩]

/-- Options passing the explicit falsy value to every slot. -/
def zeroOpts : Options :=
  { pingUrl := some "", pollInterval := some 0, maxInterval := some 0,
    backoffFactor := some 0 }

/-! ### Structural lemmas about one `_check` body -/

lemma checkBody_lastStatus (b : Bool) (lat : Option ℚ) (conn : Option Connection)
    (now : ℕ) (m : MonitorState) :
    (checkBody b lat conn now m).1.lastStatus = statusOf b := by
  cases b <;> unfold checkBody handleStatusChange <;> dsimp only <;>
    split_ifs <;> simp_all [statusOf]

lemma checkBody_lastEffectiveType (b : Bool) (lat : Option ℚ) (conn : Option Connection)
    (now : ℕ) (m : MonitorState) :
    (checkBody b lat conn now m).1.lastEffectiveType =
      infoEffectiveType (conn.map getConnectionInfo) := by
  unfold checkBody handleStatusChange
  dsimp only
  split_ifs <;> simp_all

lemma checkBody_config (b : Bool) (lat : Option ℚ) (conn : Option Connection)
    (now : ℕ) (m : MonitorState) :
    (checkBody b lat conn now m).1.pollInterval = m.pollInterval ∧
    (checkBody b lat conn now m).1.maxInterval = m.maxInterval ∧
    (checkBody b lat conn now m).1.backoffFactor = m.backoffFactor ∧
    (checkBody b lat conn now m).1.pingUrl = m.pingUrl ∧
    (checkBody b lat conn now m).1.checkTimer = m.checkTimer := by
  unfold checkBody handleStatusChange
  dsimp only
  split_ifs <;> simp_all

lemma checkBody_currentInterval (b : Bool) (lat : Option ℚ) (conn : Option Connection)
    (now : ℕ) (m : MonitorState) :
    (checkBody b lat conn now m).1.currentInterval =
      if statusOf b = m.lastStatus ∧ b = false
      then min (m.currentInterval * m.backoffFactor) m.maxInterval
      else m.pollInterval := by
  cases b <;> unfold checkBody handleStatusChange <;> dsimp only <;>
    split_ifs <;> simp_all

lemma statusCbCount_append (a b : List Callback) :
    statusCbCount (a ++ b) = statusCbCount a + statusCbCount b := by
  simp [statusCbCount, List.filter_append]

lemma statusCbCount_checkBody (b : Bool) (lat : Option ℚ) (conn : Option Connection)
    (now : ℕ) (m : MonitorState) :
    statusCbCount (checkBody b lat conn now m).2 =
      if statusOf b = m.lastStatus then 0 else 1 := by
  cases b <;> unfold checkBody handleStatusChange <;> dsimp only <;>
    split_ifs <;> simp_all [statusCbCount, Callback.isStatusCb]

lemma checkReports_checkBody (b : Bool) (lat : Option ℚ) (conn : Option Connection)
    (now : ℕ) (m : MonitorState) :
    checkReports (checkBody b lat conn now m).2 = [(lat, statusOf b)] := by
  cases b <;> unfold checkBody handleStatusChange <;> dsimp only <;>
    split_ifs <;> simp_all [checkReports]

lemma checkBody_checkCbs (b : Bool) (lat : Option ℚ) (conn : Option Connection)
    (now : ℕ) (m : MonitorState) :
    ((checkBody b lat conn now m).2.filter Callback.isCheckCb) =
      [Callback.check now (checkBody b lat conn now m).1.currentInterval lat (statusOf b)
        (conn.map getConnectionInfo)] := by
  cases b <;> unfold checkBody handleStatusChange <;> dsimp only <;>
    split_ifs <;> simp_all [Callback.isCheckCb]

lemma changePayloads_checkBody (b : Bool) (lat : Option ℚ) (conn : Option Connection)
    (now : ℕ) (m : MonitorState) :
    changePayloads (checkBody b lat conn now m).2 =
      if infoEffectiveType (conn.map getConnectionInfo) = m.lastEffectiveType then []
      else [pollChangePayload now (infoEffectiveType (conn.map getConnectionInfo))
              m.lastEffectiveType] := by
  cases b <;> unfold checkBody handleStatusChange <;> dsimp only <;>
    split_ifs <;> simp_all [changePayloads]

lemma changePayloads_handleConnectionChange (c : Connection) (now : ℕ) (m : MonitorState) :
    changePayloads (handleConnectionChange (some c) now m).2 =
      (if c.effectiveType = m.lastEffectiveType then []
       else [eventChangePayload now c m.lastEffectiveType]) := by
  unfold handleConnectionChange
  dsimp only
  split_ifs <;> simp_all [changePayloads]

lemma handleConnectionChange_lastEffectiveType (c : Connection) (now : ℕ) (m : MonitorState) :
    (handleConnectionChange (some c) now m).1.lastEffectiveType = c.effectiveType := by
  unfold handleConnectionChange
  dsimp only
  split_ifs <;> simp_all

/-! ### Backoff arithmetic -/

lemma min_mul_right (a c f : ℚ) (hc : 0 ≤ c) (hf : 1 ≤ f) :
    min (min a c * f) c = min (a * f) c := by
  rcases le_total a c with h | h
  · rw [min_eq_left h]
  · have h0f : (0 : ℚ) ≤ f := le_trans zero_le_one hf
    have h1 : c ≤ c * f := le_mul_of_one_le_right hc hf
    have h2 : c ≤ a * f := le_trans h1 (mul_le_mul_of_nonneg_right h h0f)
    rw [min_eq_right h, min_eq_right h1, min_eq_right h2]

lemma runPolls_offline (obs : List PollObs) :
    ∀ (m : MonitorState) (a : ℚ), (∀ o ∈ obs, o.isOnline = false) →
      m.lastStatus = Status.offline →
      m.currentInterval = min a m.maxInterval →
      0 ≤ m.maxInterval → 1 ≤ m.backoffFactor →
      (runPolls m obs).1.currentInterval =
        min (a * m.backoffFactor ^ obs.length) m.maxInterval := by
  induction obs with
  | nil =>
    intro m a _ _ hcur _ _
    simpa using hcur
  | cons o rest ih =>
    intro m a hobs hst hcur hmax hf
    obtain ⟨ob, olat, oconn, onow⟩ := o
    have hb : ob = false := hobs ⟨ob, olat, oconn, onow⟩ (List.mem_cons_self _ _)
    subst hb
    have hcfg := checkBody_config false olat oconn onow m
    have hci := checkBody_currentInterval false olat oconn onow m
    have hls := checkBody_lastStatus false olat oconn onow m
    rw [if_pos ⟨(by rw [hst]; rfl : statusOf false = m.lastStatus), rfl⟩] at hci
    have hstep : (checkBody false olat oconn onow m).1.currentInterval =
        min (a * m.backoffFactor) m.maxInterval := by
      rw [hci, hcur, min_mul_right a m.maxInterval m.backoffFactor hmax hf]
    have hrun : (runPolls m (⟨false, olat, oconn, onow⟩ :: rest)).1 =
        (runPolls (checkBody false olat oconn onow m).1 rest).1 := rfl
    rw [hrun, ih (checkBody false olat oconn onow m).1 (a * m.backoffFactor)
      (fun q hq => hobs q (List.mem_cons_of_mem _ hq)) hls
      (by rw [hstep, hcfg.2.1]) (by rw [hcfg.2.1]; exact hmax)
      (by rw [hcfg.2.2.1]; exact hf)]
    rw [hcfg.2.1, hcfg.2.2.1]
    have hp : a * m.backoffFactor * m.backoffFactor ^ rest.length =
        a * m.backoffFactor ^ (rest.length + 1) := by
      rw [pow_succ]
      ring
    rw [List.length_cons, hp]

/-! ### The single-timer invariant -/

lemma timerInv_pending_nil (w : World) (h : TimerInv w)
    (hct : w.monitor.checkTimer = none) : w.pendingTimers = [] := by
  cases hp : w.pendingTimers with
  | nil => rfl
  | cons p l =>
    have hmem := h.2 p (by rw [hp]; exact List.mem_cons_self _ _)
    rw [hct] at hmem
    cases hmem

lemma timerInv_filter_nil (w : World) (h : TimerInv w) (hh : ℕ)
    (hct : w.monitor.checkTimer = some hh) :
    w.pendingTimers.filter (fun p => p.1 ≠ hh) = [] := by
  apply List.filter_eq_nil_iff.mpr
  intro p hp
  have hmem := h.2 p hp
  rw [hct] at hmem
  have hph : p.1 = hh := (Option.some.inj hmem).symm
  simp [hph]

lemma timerInv_scheduleCheck (w : World) (h : TimerInv w) : TimerInv (scheduleCheck w) := by
  unfold scheduleCheck TimerInv
  cases hct : w.monitor.checkTimer with
  | none =>
    have hnil := timerInv_pending_nil w h hct
    dsimp only
    rw [hnil]
    refine ⟨by simp, ?_⟩
    intro p hp
    simp only [List.nil_append, List.mem_singleton] at hp
    simp [hp]
  | some hh =>
    have hnil := timerInv_filter_nil w h hh hct
    dsimp only
    rw [hnil]
    refine ⟨by simp, ?_⟩
    intro p hp
    simp only [List.nil_append, List.mem_singleton] at hp
    simp [hp]

lemma timerInv_filterTimers (w : World) (h : TimerInv w) (f : ℕ × ℚ → Bool) :
    TimerInv { w with pendingTimers := w.pendingTimers.filter f } := by
  refine ⟨le_trans (List.length_filter_le _ _) h.1, ?_⟩
  intro p hp
  exact h.2 p (List.mem_of_mem_filter hp)

lemma handleConnectionChange_checkTimer (conn : Option Connection) (now : ℕ)
    (m : MonitorState) :
    (handleConnectionChange conn now m).1.checkTimer = m.checkTimer := by
  unfold handleConnectionChange
  cases conn with
  | none => rfl
  | some c =>
    dsimp only
    split_ifs <;> rfl

lemma setupConnectionChangeListener_timers (conn : Option Connection) (w : World) :
    (setupConnectionChangeListener conn w).pendingTimers = w.pendingTimers ∧
    (setupConnectionChangeListener conn w).monitor.checkTimer = w.monitor.checkTimer ∧
    (setupConnectionChangeListener conn w).monitor.currentInterval =
      w.monitor.currentInterval ∧
    (setupConnectionChangeListener conn w).nextId = w.nextId := by
  unfold setupConnectionChangeListener
  cases conn with
  | none => exact ⟨rfl, rfl, rfl, rfl⟩
  | some c =>
    dsimp only
    split_ifs <;> exact ⟨rfl, rfl, rfl, rfl⟩

lemma timerInv_runCheckBody (b : Bool) (lat : Option ℚ) (env : CheckEnv) (w : World)
    (h : TimerInv w) : TimerInv (runCheckBody b lat env w).1 := by
  unfold runCheckBody
  dsimp only
  apply timerInv_scheduleCheck
  refine ⟨h.1, ?_⟩
  intro p hp
  rw [show ({ w with monitor := (checkBody b lat env.connection env.now w.monitor).1 } :
      World).monitor.checkTimer = w.monitor.checkTimer from
    (checkBody_config b lat env.connection env.now w.monitor).2.2.2.2]
  exact h.2 p hp

lemma timerInv_stop (conn : Option Connection) (w : World) (h : TimerInv w) :
    TimerInv (stop conn w) := by
  unfold stop
  dsimp only
  split_ifs with hc
  all_goals
    cases hct : w.monitor.checkTimer with
    | some hh =>
      dsimp only
      have hnil := timerInv_filter_nil w h hh hct
      exact ⟨by rw [hnil]; simp, by intro p hp; rw [hnil] at hp; cases hp⟩
    | none =>
      dsimp only
      exact ⟨h.1, fun p hp => h.2 p hp⟩

lemma timerInv_start (conn : Option Connection) (w : World) (h : TimerInv w) :
    TimerInv (start conn w) := by
  unfold start
  apply timerInv_scheduleCheck
  have hs := setupConnectionChangeListener_timers conn
    { w with onlineListener := true, offlineListener := true }
  refine ⟨?_, ?_⟩
  · rw [hs.1]; exact h.1
  · intro p hp
    rw [hs.1] at hp
    rw [hs.2.1]
    exact h.2 p hp

lemma timerInv_step (w : World) (e : Event) (h : TimerInv w) : TimerInv (step w e).1 := by
  cases e with
  | fireTimer hh env =>
    simp only [step]
    split_ifs with hmem
    · have hw1 : TimerInv { w with
          pendingTimers := w.pendingTimers.filter (fun p => p.1 ≠ hh) } :=
        timerInv_filterTimers w h _
      cases hp : w.monitor.pingUrl with
      | some u => simp only [hp]; exact ⟨hw1.1, hw1.2⟩
      | none => simp only [hp]; exact timerInv_runCheckBody _ _ _ _ hw1
    · exact h
  | settleProbe pid result env =>
    simp only [step]
    split_ifs with hmem
    · have hw1 : TimerInv { w with inFlight := w.inFlight.filter (fun q => q ≠ pid) } :=
        ⟨h.1, h.2⟩
      cases result with
      | some lat => exact timerInv_runCheckBody _ _ _ _ hw1
      | none => exact timerInv_runCheckBody _ _ _ _ hw1
    · exact h
  | nativeOnline now =>
    simp only [step]
    split_ifs with hl
    · exact ⟨h.1, h.2⟩
    · exact h
  | nativeOffline now =>
    simp only [step]
    split_ifs with hl
    · exact ⟨h.1, h.2⟩
    · exact h
  | connChange conn now =>
    simp only [step]
    split_ifs with hl
    · refine ⟨h.1, ?_⟩
      intro p hp
      rw [show ({ w with monitor := (handleConnectionChange conn now w.monitor).1 } :
          World).monitor.checkTimer = w.monitor.checkTimer from
        handleConnectionChange_checkTimer conn now w.monitor]
      exact h.2 p hp
    · exact h
  | userStart conn =>
    simp only [step]
    exact timerInv_start conn w h
  | userStop conn =>
    simp only [step]
    exact timerInv_stop conn w h

/-! ### Claims -/

/-- Claim C1: the spec requires that after `stop()` no callback fires from
work scheduled before the call and no new timer is created.  The code
violates this: `stop()` removes the listeners and clears the pending timer,
but it has no reference to the `AbortController` of a running `_check`, so
a probe in flight at `stop()` later resumes, invokes `onCheck`, and
`_scheduleCheck()` installs a fresh timer.  Concretely: start a
ping-configured monitor, fire its timer (the probe goes in flight), call
`stop()` — the world then has no pending timer and no listeners — and let
the fetch settle: `onCheck` fires and a new timer is pending. -/
theorem stop_does_not_silence_inflight_probe :
    stoppedWorld.pendingTimers = [] ∧
    stoppedWorld.onlineListener = false ∧
    stoppedWorld.offlineListener = false ∧
    stoppedWorld.inFlight = [1] ∧
    (step stoppedWorld (Event.settleProbe 1 (some 42) envOnline)).2 =
      [Callback.check 0 10000 (some 42) Status.online none] ∧
    (step stoppedWorld (Event.settleProbe 1 (some 42) envOnline)).1.pendingTimers =
      [(2, 10000)] := by
  decide

/-- Claim C2, counterexample: a poll observes offline (a transition, one
`onOffline`), then a native `offline` event arrives during the same outage:
the handler calls `_handleStatusChange` unconditionally, so `onOffline`
fires a second time for one contiguous run of offline observations — the
claim promises exactly one firing per contiguous run over probe ticks and
native events alike. -/
theorem native_offline_refires_counterexample :
    ((run (initWorld {}) [Event.userStart none, Event.fireTimer 0 envOffline,
        Event.nativeOffline 9]).2.filter Callback.isStatusCb) =
      [Callback.offlineCb 0, Callback.offlineCb 9] := by
  decide

/-- Claim C2 (amended): poll-driven observations are edge-triggered — over
any sequence of probe-tick observations, `onOnline`/`onOffline` fire once
per contiguous run of same-direction observations that changes the held
status and never for an observation confirming it — but a native
`online`/`offline` event invokes the matching callback unconditionally,
with no comparison against the held status. -/
theorem poll_observations_edge_triggered :
    (∀ (m : MonitorState) (obs : List PollObs),
      statusCbCount (runPolls m obs).2 =
        edgeCount m.lastStatus (obs.map PollObs.isOnline)) ∧
    (∀ (b : Bool) (now : ℕ) (m : MonitorState),
      (handleStatusChange b now m).2 =
        [if b then Callback.onlineCb now else Callback.offlineCb now]) := by
  constructor
  · intro m obs
    induction obs generalizing m with
    | nil => rfl
    | cons o rest ih =>
      show statusCbCount ((checkBody o.isOnline o.latency o.conn o.now m).2 ++
        (runPolls (checkBody o.isOnline o.latency o.conn o.now m).1 rest).2) = _
      rw [statusCbCount_append, statusCbCount_checkBody, ih, checkBody_lastStatus]
      simp [edgeCount]
  · intro b now m
    rfl

/-- Claim C3, counterexample: an effective-type change delivered through the
native `change` event produces an `onChange` payload whose `source` field is
absent (`undefined`), not `"event"` as the claim states: after `start()`
records `"4g"` as baseline, a native change to `"3g"` fires `onChange` with
new/previous types and the extra link fields but `source = none`. -/
theorem event_change_counterexample :
    (run (initWorld {}) [Event.userStart (some wifi4g),
        Event.connChange (some wifi3g) 7]).2 =
      [Callback.changeCb
        { timestamp := 7, effectiveType := some "3g", previousEffectiveType := some "4g",
          source := none, downlink := some 10, rtt := some 50, saveData := some false,
          connType := some "wifi" }] ∧
    ((changePayloads (run (initWorld {}) [Event.userStart (some wifi4g),
        Event.connChange (some wifi3g) 7]).2).map ChangePayload.source) =
      [none] := by
  decide

/-- Claim C3 (amended): an effective-type change detected via the native
`change` event fires `onChange` with the new and previous effective types
and the extra link fields (`downlink`, `rtt`, `saveData`, `type`), but
carries no `source` tag at all; only poll-detected changes carry a `source`
tag, and it is always `"poll"`. -/
theorem event_change_payload_shape :
    (∀ (c : Connection) (now : ℕ) (m : MonitorState),
      c.effectiveType ≠ m.lastEffectiveType →
        (handleConnectionChange (some c) now m).2 =
          [Callback.changeCb
            { timestamp := now, effectiveType := c.effectiveType,
              previousEffectiveType := m.lastEffectiveType, source := none,
              downlink := c.downlink, rtt := c.rtt, saveData := c.saveData,
              connType := c.connType }]) ∧
    (∀ (b : Bool) (lat : Option ℚ) (conn : Option Connection) (now : ℕ)
        (m : MonitorState) (p : ChangePayload),
      p ∈ changePayloads (checkBody b lat conn now m).2 → p.source = some "poll") := by
  constructor
  · intro c now m hne
    unfold handleConnectionChange
    dsimp only
    rw [if_pos hne]
    rfl
  · intro b lat conn now m p hp
    rw [changePayloads_checkBody] at hp
    split_ifs at hp with h
    · cases hp
    · simp only [List.mem_singleton] at hp
      rw [hp]
      rfl

/-- Claim C3, witness for the amended theorem at a concrete input. -/
theorem event_change_payload_shape_witness :
    (handleConnectionChange (some wifi3g) 7 monitor4g).2 =
      [Callback.changeCb
        { timestamp := 7, effectiveType := some "3g", previousEffectiveType := some "4g",
          source := none, downlink := some 10, rtt := some 50, saveData := some false,
          connType := some "wifi" }] ∧
    (pollChangePayload 3 (some "3g") (some "4g")).source = some "poll" :=
  ⟨event_change_payload_shape.1 wifi3g 7 monitor4g (by decide),
   event_change_payload_shape.2 true none (some wifi3g) 3 monitor4g
     (pollChangePayload 3 (some "3g") (some "4g")) (by decide)⟩

/-- Claim C4, counterexample: a native `offline` event is an observation
(it updates the held status through `_handleStatusChange`) yet fires no
`onCheck` at all — the code performs no one-shot check on native events, so
the claim that every observation fires `onCheck` fails. -/
theorem native_event_no_check_counterexample :
    (run (initWorld {}) [Event.userStart none, Event.nativeOffline 5]).2 =
      [Callback.offlineCb 5] ∧
    ((run (initWorld {}) [Event.userStart none, Event.nativeOffline 5]).2.filter
      Callback.isCheckCb) = [] := by
  decide

/-- Claim C4 (amended): every probe-tick observation fires `onCheck` exactly
once, with the timestamp, the now-current `currentInterval` (the interval
after this tick's reset/backoff), the latency, the resulting status, and
the link-metadata snapshot; a native `online`/`offline` event fires only
the transition callback and never `onCheck`. -/
theorem check_callback_on_poll_ticks_only :
    (∀ (b : Bool) (lat : Option ℚ) (conn : Option Connection) (now : ℕ)
        (m : MonitorState),
      ((checkBody b lat conn now m).2.filter Callback.isCheckCb) =
        [Callback.check now (checkBody b lat conn now m).1.currentInterval lat
          (statusOf b) (conn.map getConnectionInfo)]) ∧
    (∀ (b : Bool) (now : ℕ) (m : MonitorState),
      ((handleStatusChange b now m).2.filter Callback.isCheckCb) = []) := by
  constructor
  · exact checkBody_checkCbs
  · intro b now m
    cases b <;> rfl

/-- Claim C5, counterexample: with base 1000 / max 4000 / factor 2, two
offline polls leave `currentInterval = 2000`; after `stop()` then
`start()`, the first probe is scheduled with delay 2000, not the base
interval 1000 — `start()` creates no fresh state and does not reset the
interval. -/
theorem restart_keeps_backed_off_interval :
    ((run (initWorld backoffOpts) [Event.userStart none, Event.fireTimer 0 envOffline,
        Event.fireTimer 1 envOffline, Event.userStop none,
        Event.userStart none]).1.pendingTimers) = [(3, 2000)] ∧
    (run (initWorld backoffOpts) [Event.userStart none, Event.fireTimer 0 envOffline,
        Event.fireTimer 1 envOffline, Event.userStop none,
        Event.userStart none]).1.monitor.pollInterval = 1000 ∧
    ((2000 : ℚ) ≠ 1000) := by
  decide

/-- Claim C5 (amended): `start()` schedules the first probe at the
monitor's `currentInterval`: the timer it creates carries delay
`currentInterval`, and neither `start()` nor `stop()` modifies
`currentInterval` (monitor state is created by the constructor, not by
`start()`); only a freshly constructed monitor is guaranteed
`currentInterval = pollInterval`, so after a `stop()`/`start()` pair while
backed off the first probe is scheduled at the backed-off interval. -/
theorem start_schedules_at_current_interval :
    (∀ (conn : Option Connection) (w : World),
      (w.nextId, w.monitor.currentInterval) ∈ (start conn w).pendingTimers ∧
      (start conn w).monitor.currentInterval = w.monitor.currentInterval ∧
      (stop conn w).monitor.currentInterval = w.monitor.currentInterval) ∧
    (∀ o : Options,
      (initWorld o).monitor.currentInterval = (initWorld o).monitor.pollInterval) := by
  constructor
  · intro conn w
    have hs := setupConnectionChangeListener_timers conn
      { w with onlineListener := true, offlineListener := true }
    refine ⟨?_, ?_, ?_⟩
    · unfold start scheduleCheck
      dsimp only
      rw [hs.2.2.2, hs.2.2.1]
      simp
    · unfold start scheduleCheck
      dsimp only
      exact hs.2.2.1
    · unfold stop
      dsimp only
      split_ifs with hc <;> cases hct : w.monitor.checkTimer <;> dsimp only
  · intro o
    rfl

/-- Claim C6: assuming `baseInterval ≤ maxInterval`, `0 < baseInterval` and
`backoffFactor > 1`: every status transition resets `currentInterval` to
the base interval; from the state right after an Offline transition
(status offline, interval reset), `k` consecutive further offline
observations leave `currentInterval = min (base * factor^k) max`; and any
single `_check` observation keeps `currentInterval` inside
`[baseInterval, maxInterval]`. -/
theorem backoff_bound_and_reset (m : MonitorState)
    (hbm : m.pollInterval ≤ m.maxInterval) (hb : 0 < m.pollInterval)
    (hf : 1 < m.backoffFactor) :
    (∀ (b : Bool) (now : ℕ),
      (handleStatusChange b now m).1.currentInterval = m.pollInterval) ∧
    (m.lastStatus = Status.offline → m.currentInterval = m.pollInterval →
      ∀ obs : List PollObs, (∀ o ∈ obs, o.isOnline = false) →
        (runPolls m obs).1.currentInterval =
          min (m.pollInterval * m.backoffFactor ^ obs.length) m.maxInterval) ∧
    (∀ (b : Bool) (lat : Option ℚ) (conn : Option Connection) (now : ℕ),
      m.pollInterval ≤ m.currentInterval → m.currentInterval ≤ m.maxInterval →
        m.pollInterval ≤ (checkBody b lat conn now m).1.currentInterval ∧
        (checkBody b lat conn now m).1.currentInterval ≤ m.maxInterval) := by
  refine ⟨?_, ?_, ?_⟩
  · intro b now
    rfl
  · intro hst hcur obs hobs
    exact runPolls_offline obs m m.pollInterval hobs hst
      (by rw [hcur, min_eq_left hbm]) (le_trans (le_of_lt hb) hbm) (le_of_lt hf)
  · intro b lat conn now hlo hhi
    rw [checkBody_currentInterval]
    split_ifs with hcase
    · refine ⟨le_min (le_trans hlo ?_) hbm, min_le_right _ _⟩
      exact le_mul_of_one_le_right (le_trans (le_of_lt hb) hlo) (le_of_lt hf)
    · exact ⟨le_refl _, hbm⟩

/-- Claim C6, witness: base 1000, max 4000, factor 2, three consecutive
offline observations following an Offline transition. -/
theorem backoff_bound_and_reset_witness :
    (runPolls offlineBase threeOffline).1.currentInterval =
      min (offlineBase.pollInterval * offlineBase.backoffFactor ^ threeOffline.length)
        offlineBase.maxInterval ∧
    min (offlineBase.pollInterval * offlineBase.backoffFactor ^ threeOffline.length)
      offlineBase.maxInterval = 4000 :=
  ⟨(backoff_bound_and_reset offlineBase (by decide) (by decide) (by decide)).2.1
    rfl rfl threeOffline (by decide), by decide⟩

/-- Claim C7: the single-timer invariant — at most one check timer pending,
and any pending one is the one `_checkTimer` records — holds for a freshly
constructed monitor and is preserved by every event-loop task
(`_scheduleCheck` always clears the recorded timer before installing a new
one); consequently two consecutive `start()` calls leave at most one
pending timer. -/
theorem single_timer_invariant :
    (∀ o : Options, TimerInv (initWorld o)) ∧
    (∀ (w : World) (e : Event), TimerInv w → TimerInv (step w e).1) ∧
    (∀ (w : World) (c1 c2 : Option Connection), TimerInv w →
      ((step (step w (Event.userStart c1)).1 (Event.userStart c2)).1.pendingTimers.length
        ≤ 1)) := by
  refine ⟨?_, ?_, ?_⟩
  · intro o
    exact ⟨by simp [initWorld], by intro p hp; cases hp⟩
  · exact timerInv_step
  · intro w c1 c2 h
    exact (timerInv_step _ _ (timerInv_step _ _ h)).1

/-- Claim C7, witness: the invariant holds after a `start()` on a started
world (the double-`start()` scenario). -/
theorem single_timer_invariant_witness :
    TimerInv (step startedWorld (Event.userStart none)).1 :=
  single_timer_invariant.2.1 startedWorld (Event.userStart none) (by decide)

/-- Claim C8: probe outcome mapping.  Resuming an in-flight probe whose
request completed (any completion, opaque included) reports exactly one
`onCheck` with `latency` equal to the measured elapsed time and an online
observation; a thrown/rejected/timed-out request reports exactly one
`onCheck` with no latency and an offline observation (the failure is
absorbed by the `catch`, never rethrown — `step` is total and always
returns normally); and a tick without a configured `pingUrl` reports no
latency, with the observation taken from `navigator?.onLine ?? false`. -/
theorem probe_outcome_mapping :
    (∀ (w : World) (pid : ℕ) (l : ℚ) (env : CheckEnv),
      w.inFlight.contains pid = true →
        checkReports (step w (Event.settleProbe pid (some l) env)).2 =
          [(some l, Status.online)]) ∧
    (∀ (w : World) (pid : ℕ) (env : CheckEnv),
      w.inFlight.contains pid = true →
        checkReports (step w (Event.settleProbe pid none env)).2 =
          [(none, Status.offline)]) ∧
    (∀ (w : World) (h : ℕ) (env : CheckEnv),
      w.monitor.pingUrl = none →
      (w.pendingTimers.map Prod.fst).contains h = true →
        checkReports (step w (Event.fireTimer h env)).2 =
          [(none, statusOf (env.navOnLine.getD false))]) := by
  refine ⟨?_, ?_, ?_⟩
  · intro w pid l env hmem
    simp only [step, hmem, if_true]
    unfold runCheckBody
    dsimp only
    rw [checkReports_checkBody]
    rfl
  · intro w pid env hmem
    simp only [step, hmem, if_true]
    unfold runCheckBody
    dsimp only
    rw [checkReports_checkBody]
    rfl
  · intro w h env hping hmem
    simp only [step, hmem, if_true, hping]
    unfold runCheckBody
    dsimp only
    rw [checkReports_checkBody]

/-- Claim C8, witness: resuming the probe left in flight by `stoppedWorld`
with a completed request, and firing the timer of a probe-less monitor. -/
theorem probe_outcome_mapping_witness :
    checkReports (step stoppedWorld (Event.settleProbe 1 (some 55) envOnline)).2 =
      [(some 55, Status.online)] ∧
    checkReports (step startedWorld (Event.fireTimer 0 envOffline)).2 =
      [(none, statusOf (envOffline.navOnLine.getD false))] :=
  ⟨probe_outcome_mapping.1 stoppedWorld 1 55 envOnline (by decide),
   probe_outcome_mapping.2.2 startedWorld 0 envOffline (by decide) (by decide)⟩

/-- Claim C9: link-change dedup.  In both the poll path of `_check` and the
native `change` handler, `onChange` fires exactly when the observed
effective type differs from the recorded `_lastEffectiveType` (with the old
value as `previousEffectiveType`), the recorded value is then updated to
the observation, and consequently repeating an identical observation
through either path fires nothing. -/
theorem link_change_dedup :
    (∀ (b : Bool) (lat : Option ℚ) (conn : Option Connection) (now : ℕ)
        (m : MonitorState),
      changePayloads (checkBody b lat conn now m).2 =
        (if infoEffectiveType (conn.map getConnectionInfo) = m.lastEffectiveType then []
         else [pollChangePayload now (infoEffectiveType (conn.map getConnectionInfo))
                m.lastEffectiveType]) ∧
      (checkBody b lat conn now m).1.lastEffectiveType =
        infoEffectiveType (conn.map getConnectionInfo)) ∧
    (∀ (c : Connection) (now : ℕ) (m : MonitorState),
      changePayloads (handleConnectionChange (some c) now m).2 =
        (if c.effectiveType = m.lastEffectiveType then []
         else [eventChangePayload now c m.lastEffectiveType]) ∧
      (handleConnectionChange (some c) now m).1.lastEffectiveType = c.effectiveType) ∧
    (∀ (b b2 : Bool) (lat lat2 : Option ℚ) (conn : Option Connection) (now now2 : ℕ)
        (m : MonitorState),
      changePayloads (checkBody b2 lat2 conn now2 (checkBody b lat conn now m).1).2
        = []) ∧
    (∀ (c : Connection) (now now2 : ℕ) (m : MonitorState),
      changePayloads (handleConnectionChange (some c) now2
        (handleConnectionChange (some c) now m).1).2 = []) := by
  refine ⟨?_, ?_, ?_, ?_⟩
  · intro b lat conn now m
    exact ⟨changePayloads_checkBody b lat conn now m,
           checkBody_lastEffectiveType b lat conn now m⟩
  · intro c now m
    exact ⟨changePayloads_handleConnectionChange c now m,
           handleConnectionChange_lastEffectiveType c now m⟩
  · intro b b2 lat lat2 conn now now2 m
    rw [changePayloads_checkBody,
      if_pos (checkBody_lastEffectiveType b lat conn now m).symm]
  · intro c now now2 m
    rw [changePayloads_handleConnectionChange,
      if_pos (handleConnectionChange_lastEffectiveType c now m).symm]

/-- Claim C10: constructor defaulting through JS `||`.  A falsy option —
absent/null/empty `pingUrl`, or an explicit `0` for `pollInterval`,
`maxInterval` or `backoffFactor` — is silently replaced by the built-in
default (`null`, 10000, 60000, 2 respectively); in particular no
constructor call can produce a zero `pollInterval` or zero
`backoffFactor`. -/
theorem constructor_option_defaulting (o : Options) :
    ((o.pingUrl = none ∨ o.pingUrl = some "") → (mkMonitor o).pingUrl = none) ∧
    ((o.pollInterval = none ∨ o.pollInterval = some 0) →
      (mkMonitor o).pollInterval = 10000) ∧
    ((o.maxInterval = none ∨ o.maxInterval = some 0) →
      (mkMonitor o).maxInterval = 60000) ∧
    ((o.backoffFactor = none ∨ o.backoffFactor = some 0) →
      (mkMonitor o).backoffFactor = 2) ∧
    (mkMonitor o).pollInterval ≠ 0 ∧
    (mkMonitor o).backoffFactor ≠ 0 ∧
    (mkMonitor o).currentInterval = (mkMonitor o).pollInterval := by
  refine ⟨?_, ?_, ?_, ?_, ?_, ?_, rfl⟩
  · rintro (h | h) <;> simp [mkMonitor, jsOrString, h]
  · rintro (h | h) <;> simp [mkMonitor, jsOrNum, h]
  · rintro (h | h) <;> simp [mkMonitor, jsOrNum, h]
  · rintro (h | h) <;> simp [mkMonitor, jsOrNum, h]
  · show jsOrNum o.pollInterval 10000 ≠ 0
    unfold jsOrNum
    cases o.pollInterval with
    | none => norm_num
    | some v =>
      dsimp only
      split_ifs with h
      · norm_num
      · exact h
  · show jsOrNum o.backoffFactor 2 ≠ 0
    unfold jsOrNum
    cases o.backoffFactor with
    | none => norm_num
    | some v =>
      dsimp only
      split_ifs with h
      · norm_num
      · exact h

/-- Claim C10, witness: the all-falsy option object receives every
default. -/
theorem constructor_option_defaulting_witness :
    (mkMonitor zeroOpts).pingUrl = none ∧ (mkMonitor zeroOpts).pollInterval = 10000 ∧
    (mkMonitor zeroOpts).maxInterval = 60000 ∧ (mkMonitor zeroOpts).backoffFactor = 2 :=
  ⟨(constructor_option_defaulting zeroOpts).1 (Or.inr rfl),
   (constructor_option_defaulting zeroOpts).2.1 (Or.inr rfl),
   (constructor_option_defaulting zeroOpts).2.2.1 (Or.inr rfl),
   (constructor_option_defaulting zeroOpts).2.2.2.1 (Or.inr rfl)⟩

end NetMonitor
